import Mathlib

/-!
Shallow embedding of the simulation core of `src/game.js` (the variant at
lines 766-2000 of the source, which carries upgrades, the AI controller and
the placeholder-unit dispatch): buildings, troop units (soldiers), combat
resolution on arrival, the dispatch service, soldier generation, the AI
decision pass, and the terminal (game-over) check.  JS numbers holding
troop counts are modelled as `Int`; millisecond durations and plane
coordinates are modelled as `Rat`, which the source manipulates with exact
`+ - * /` only in everything embedded here.
-/

/-- Ownership tag of a building: `'player' | 'enemy' | 'neutral'` (game.js:801). -/
inductive Ownership where
  | player
  | enemy
  | neutral
deriving DecidableEq, Repr

/-- Simulation state of a `Building` (game.js:800-816): position, ownership,
troop count (`soldiers`, initialised to 10), upgrade level (initialised to 1),
upgrade-in-progress flag with its progress accumulator (ms), and the Phaser
`active` flag that the resolver and the aggregate passes test before using a
building. -/
structure Building where
  x : ℚ
  y : ℚ
  ownership : Ownership
  soldiers : ℤ
  level : ℕ
  isUpgrading : Bool
  upgradeProgress : ℚ
  active : Bool
deriving DecidableEq, Repr

/-- Owner faction of a troop unit.  Units carry a boolean `isPlayerOwned`
(game.js:770); the resolver compares the target building's ownership against
`soldier.isPlayerOwned ? 'player' : 'enemy'` (game.js:1788). -/
def ownerFaction (isPlayerOwned : Bool) : Ownership :=
  if isPlayerOwned then Ownership.player else Ownership.enemy

/-- Upgrade cost in soldiers: `5 * this.level` (game.js:893). -/
def Building.upgradeCost (b : Building) : ℤ := 5 * (b.level : ℤ)

/-- Source function `Building.startUpgrade` (game.js:888-925): returns the building unchanged
when it is already upgrading, or when `soldiers < 5 * level` (the shake/flash
feedback on that path is cosmetic); otherwise deducts the cost, sets the
upgrading flag and zeroes the progress accumulator.  The source contains no
comparison of the level against a cap on this path. -/
def Building.startUpgrade (b : Building) : Building :=
  if b.isUpgrading then b
  else if b.soldiers < b.upgradeCost then b
  else { b with soldiers := b.soldiers - b.upgradeCost,
                isUpgrading := true,
                upgradeProgress := 0 }

/-- Time to generate one soldier at a given level:
`1000 * 0.85^(level - 1)` ms (game.js:996-997). -/
def generationTime (level : ℕ) : ℚ := 1000 * (85 / 100 : ℚ) ^ (level - 1)

/-- Result of one `Building.update` call: the new building state, and whether
`lastUpdate` was set to the tick timestamp (which clears the elapsed-time
accumulation; `timerReset = false` means the elapsed time keeps accumulating
into the next call). -/
structure UpdateOut where
  b : Building
  timerReset : Bool
deriving DecidableEq, Repr

/-- Source function `Building.update` (game.js:947-1015), with `elapsedMs = now - lastUpdate`
computed at entry (game.js:948-949).  While upgrading, progress advances by
`elapsedMs`; once `progress >= 3000` (`upgradeTime`, game.js:815) the level
increments and the flag clears, and the generation branch below then runs in
the same call reading the cleared flag and the new level.  A non-neutral,
non-upgrading building generates exactly one soldier when
`elapsedMs >= generationTime level`, then sets `lastUpdate = now`; when the
interval has not elapsed, `lastUpdate` is left alone.  Neutral or
still-upgrading buildings just set `lastUpdate = now` (game.js:1011-1014). -/
def Building.update (b : Building) (elapsedMs : ℚ) : UpdateOut :=
  let b1 :=
    if b.isUpgrading then
      let p := b.upgradeProgress + elapsedMs
      if p ≥ 3000 then
        { b with level := b.level + 1, isUpgrading := false, upgradeProgress := p }
      else
        { b with upgradeProgress := p }
    else b
  if b1.ownership ≠ Ownership.neutral ∧ b1.isUpgrading = false then
    if elapsedMs ≥ generationTime b1.level then
      ⟨{ b1 with soldiers := b1.soldiers + 1 }, true⟩
    else
      ⟨b1, false⟩
  else
    ⟨b1, true⟩

/-- Arrival of a single troop unit at a located building (game.js:1787-1812).
A friendly arrival adds one soldier; a hostile arrival subtracts one, and if
the result is negative the building's ownership is set to the unit's faction
(`setOwnership`, which also refreshes the derived `isPlayerOwned` flag and
visuals) and the stored count becomes `Math.abs` of the negative result. -/
def resolveHit (isPlayerOwned : Bool) (b : Building) : Building :=
  if b.ownership = ownerFaction isPlayerOwned then
    { b with soldiers := b.soldiers + 1 }
  else
    if b.soldiers - 1 < 0 then
      { b with ownership := ownerFaction isPlayerOwned, soldiers := |b.soldiers - 1| }
    else
      { b with soldiers := b.soldiers - 1 }

/-- Iterated arrivals of `n` troop units of one owner at the same building,
resolved one at a time in the order they reach the target. -/
def applyHits (isPlayerOwned : Bool) : ℕ → Building → Building
  | 0, b => b
  | n + 1, b => applyHits isPlayerOwned n (resolveHit isPlayerOwned b)

/-- Predicate of the resolver's `find` (game.js:1778-1785): the building is
present and active, and its centre lies within 50 px of the unit's target
point (squared threshold 2500). -/
def withinCaptureRadius (tx ty : ℚ) (b : Building) : Bool :=
  b.active && decide ((b.x - tx) * (b.x - tx) + (b.y - ty) * (b.y - ty) < 2500)

/-- Resolver lookup-and-update: the JS `Array.find` returns the first
building in iteration order satisfying the radius test, and the hit is
applied to that object in place; when nothing matches, the collection is
untouched. -/
def resolveArrival (isPlayerOwned : Bool) (tx ty : ℚ) : List Building → List Building
  | [] => []
  | b :: bs =>
    if withinCaptureRadius tx ty b then resolveHit isPlayerOwned b :: bs
    else b :: resolveArrival isPlayerOwned tx ty bs

/-- Outcome of processing one unit that reported `reached` inside
`MainScene.update` (game.js:1776-1820): the updated building collection and
whether the unit stays in the live collection.  It never does: the unit is
destroyed and not pushed into `stillActiveSoldiers`, whether or not a
building was found (game.js:1814-1816). -/
structure ArrivalOut where
  buildings : List Building
  unitKept : Bool
deriving DecidableEq, Repr

/-- One reached-target unit processed against the building collection. -/
def processReached (isPlayerOwned : Bool) (tx ty : ℚ) (bs : List Building) : ArrivalOut :=
  { buildings := resolveArrival isPlayerOwned tx ty bs, unitKept := false }

/-- Result of `MainScene.sendSoldiers` (game.js:1885-1980): the source
building after the immediate deduction, the number of placeholder units
pushed into the live collection at dispatch time (game.js:1914-1925), and the
delays in ms of the scheduled real spawns — one `delayedCall` per soldier at
`i * 50` ms (game.js:1931-1934). -/
structure DispatchOut where
  src : Building
  placeholders : ℕ
  spawnDelays : List ℕ
deriving DecidableEq, Repr

/-- Source function `MainScene.sendSoldiers` (game.js:1885-1980).  Returns immediately when
`count <= 0` (game.js:1886); clamps to `Math.min(source.soldiers, count)` and
returns when the clamp is `<= 0` (game.js:1889-1891); otherwise deducts the
clamped amount from the source at dispatch time and schedules that many
staggered spawns.  The geometry (spawn-arc jitter, target offset) affects
only where units appear, not the counts. -/
def sendSoldiers (src : Building) (count : ℤ) : DispatchOut :=
  if count ≤ 0 then ⟨src, 0, []⟩
  else
    let soldiersToSend := min src.soldiers count
    if soldiersToSend ≤ 0 then ⟨src, 0, []⟩
    else
      ⟨{ src with soldiers := src.soldiers - soldiersToSend },
       soldiersToSend.toNat,
       (List.range soldiersToSend.toNat).map (fun i => i * 50)⟩

/-- One mutation touching a building's troop count during a tick sequence:
a generation update, a (player- or AI-issued) upgrade start, a dispatch
deduction, or an arrival resolution against this building. -/
inductive Op where
  | generate (elapsedMs : ℚ)
  | upgradeStart
  | dispatch (count : ℤ)
  | arrival (isPlayerOwned : Bool)

/-- Effect of one mutation on the building it touches. -/
def applyOp (b : Building) : Op → Building
  | Op.generate e => (Building.update b e).b
  | Op.upgradeStart => Building.startUpgrade b
  | Op.dispatch c => (sendSoldiers b c).src
  | Op.arrival p => resolveHit p b

/-- A whole interleaving of mutations applied to one building in order. -/
def applyOps (b : Building) (ops : List Op) : Building :=
  ops.foldl applyOp b

/-- AI decision produced by `evaluateStrategicOptions` (game.js:1158-1210).
Dispatch decisions carry the chosen target's soldier count and the soldier
count passed on to `sendSoldiers`. -/
inductive Decision where
  | hold
  | upgrade
  | expand (targetSoldiers : ℤ) (count : ℤ)
  | attack (targetSoldiers : ℤ) (count : ℤ)
deriving DecidableEq, Repr

/-- Random draws consumed by one `evaluateStrategicOptions` call, in source
order: the upgrade roll (game.js:1181), the expansion roll (game.js:1189) and
the attack roll (game.js:1199).  Each stands for one `Math.random()` value;
the source's short-circuiting draws a roll only when the preceding list is
nonempty, which the embedding reflects by consulting the roll only there. -/
structure Rolls where
  upgradeRoll : ℚ
  expandRoll : ℚ
  attackRoll : ℚ
deriving DecidableEq, Repr

/-- AI difficulty parameters of a decision pass (game.js:1047-1069). -/
structure AIParams where
  aggressiveness : ℚ
  expansionPriority : ℚ
  minSoldiersToKeep : ℚ
deriving DecidableEq, Repr

/-- Sendable cap (game.js:1173):
`Math.max(1, Math.floor(building.soldiers * (1 - minSoldiersToKeep * threatLevel)))`. -/
def maxSoldiersToSend (soldiers : ℤ) (minSoldiersToKeep threatLevel : ℚ) : ℤ :=
  max 1 (Int.floor ((soldiers : ℚ) * (1 - minSoldiersToKeep * threatLevel)))

/-- Sendable cap written from the spec's words alone, for comparison:
`max(1, floor(ownTroops * (1 - minSoldiersToKeep * threatLevel)))`. -/
def specSendableCap (ownTroops : ℤ) (minSoldiersToKeep threatLevel : ℚ) : ℤ :=
  max 1 (Int.floor ((ownTroops : ℚ) * (1 - minSoldiersToKeep * threatLevel)))

/-- Soldier count sent at a dispatch decision:
`Math.min(maxSoldiersToSend, Math.ceil(target.building.soldiers * 1.5))`
(game.js:1194,1204). -/
def dispatchCount (cap targetSoldiers : ℤ) : ℤ :=
  min cap (Int.ceil ((targetSoldiers : ℚ) * (3 / 2)))

/-- Attack stage of the decision (game.js:1199-1209): with a nonempty
attack-target list and a favourable roll, attack the top-scored target;
otherwise hold. -/
def attackStage (cap : ℤ) (attackTargets : List ℤ) (aggressiveness roll : ℚ) : Decision :=
  match attackTargets with
  | [] => Decision.hold
  | t :: _ =>
    if roll < aggressiveness then Decision.attack t (dispatchCount cap t)
    else Decision.hold

/-- Expansion stage of the decision (game.js:1189-1196): with a nonempty
expansion-target list and a favourable roll, expand to the top-scored
neutral target; otherwise fall through to the attack stage. -/
def expandStage (cap : ℤ) (expansionTargets attackTargets : List ℤ)
    (p : AIParams) (r : Rolls) : Decision :=
  match expansionTargets with
  | [] => attackStage cap attackTargets p.aggressiveness r.attackRoll
  | t :: _ =>
    if r.expandRoll < p.expansionPriority then Decision.expand t (dispatchCount cap t)
    else attackStage cap attackTargets p.aggressiveness r.attackRoll

/-- Source function `AIController.evaluateStrategicOptions` (game.js:1158-1210).  The target
lists stand for the already-scored-and-sorted outputs of
`evaluateExpansionTargets` / `evaluateAttackTargets` (each entry the target
building's soldier count, best score first); their geometry-based scoring
fixes only the order and content of these lists and is irrelevant to which
branch runs.  Branch order is the source's: the cap-hold check first, then
the upgrade roll, then expansion, then attack, then hold. -/
def evaluateStrategicOptions (b : Building) (threatLevel : ℚ)
    (expansionTargets attackTargets : List ℤ) (p : AIParams) (r : Rolls) : Decision :=
  let cap := maxSoldiersToSend b.soldiers p.minSoldiersToKeep threatLevel
  if cap ≤ 1 then Decision.hold
  else if b.level < 3 ∧ b.soldiers > 15 ∧ r.upgradeRoll < 1 / 10 then Decision.upgrade
  else expandStage cap expansionTargets attackTargets p r

/-- Source function `AIController.decideForBuilding` (game.js:1129-1156): skips buildings that
are upgrading or hold `<= 1` soldier; otherwise evaluates and executes the
decision.  The returned value is the action actually issued: in the upgrade
case the source re-checks `!building.isUpgrading && building.level < 3`
before calling `startUpgrade` (game.js:1148), so a decision of `upgrade`
failing that guard issues nothing (`hold`). -/
def decideForBuilding (b : Building) (threatLevel : ℚ)
    (expansionTargets attackTargets : List ℤ) (p : AIParams) (r : Rolls) : Decision :=
  if b.isUpgrading then Decision.hold
  else if b.soldiers ≤ 1 then Decision.hold
  else
    match evaluateStrategicOptions b threatLevel expansionTargets attackTargets p r with
    | Decision.upgrade =>
        if b.isUpgrading = false ∧ b.level < 3 then Decision.upgrade else Decision.hold
    | d => d

/-- Scene state relevant to the terminal check (game.js:1713-1743): the
building collection and the sticky `gameOver` flag. -/
structure SceneState where
  buildings : List Building
  gameOver : Bool
deriving DecidableEq, Repr

/-- Outcome reported to the presentation layer by `showGameOverModal`. -/
inductive Outcome where
  | win
  | lose
deriving DecidableEq, Repr

/-- Whether some active building of the collection belongs to the given
faction (the two `forEach` flags of game.js:1716-1730). -/
def hasBuildings (o : Ownership) (bs : List Building) : Bool :=
  bs.any (fun b => b.active && b.ownership == o)

/-- Source function `MainScene.checkGameOver` (game.js:1713-1740): returns the new state and
the modal reported by this call, if any.  Early return when `gameOver` is
already set; a win sets the flag when the player has an active building and
the enemy has none, a loss symmetrically; when both factions have buildings,
or neither does, nothing happens and the flag stays clear. -/
def checkGameOver (s : SceneState) : SceneState × Option Outcome :=
  if s.gameOver then (s, none)
  else
    let playerHas := hasBuildings Ownership.player s.buildings
    let enemyHas := hasBuildings Ownership.enemy s.buildings
    if playerHas && !enemyHas then ({ s with gameOver := true }, some Outcome.win)
    else if enemyHas && !playerHas then ({ s with gameOver := true }, some Outcome.lose)
    else (s, none)

/-- Terminal checks across subsequent ticks: each tick the building
collection may have changed arbitrarily (the list supplies one collection
per tick); returns the final state and every outcome reported, in order. -/
def runChecks : SceneState → List (List Building) → SceneState × List Outcome
  | s, [] => (s, [])
  | s, bs :: rest =>
    let step := checkGameOver { s with buildings := bs }
    let tail := runChecks step.1 rest
    (tail.1, step.2.toList ++ tail.2)

/-- Squared length of the source-to-target vector computed by the `Soldier`
constructor (game.js:773-775); the constructor divides `dx` and `dy` by
`Math.sqrt` of this value and scales by the speed (game.js:778-779). -/
def Soldier.dirLengthSq (x y targetX targetY : ℚ) : ℚ :=
  (targetX - x) * (targetX - x) + (targetY - y) * (targetY - y)

/-- Whether the constructor's velocity components come out as well-defined
finite numbers.  `Math.sqrt s = 0` iff `s = 0`, and the JS division `0 / 0`
yields `NaN`, so the components are finite exactly when the squared length is
nonzero.  The constructor performs the division unconditionally — no guard
tests this condition in the source. -/
def Soldier.velocityDefined (x y targetX targetY : ℚ) : Bool :=
  decide (Soldier.dirLengthSq x y targetX targetY ≠ 0)

/-! ## Helper lemmas -/

/-- A hostile hit on a building holding at least one soldier decrements
without flipping. -/
theorem resolveHit_hostile_pos (p : Bool) (b : Building)
    (h : b.ownership ≠ ownerFaction p) (h1 : 1 ≤ b.soldiers) :
    resolveHit p b = { b with soldiers := b.soldiers - 1 } := by
  unfold resolveHit
  rw [if_neg h, if_neg (by omega)]

/-- Hostile hits that never exhaust the garrison just count it down. -/
theorem applyHits_hostile (p : Bool) :
    ∀ (n : ℕ) (b : Building), b.ownership ≠ ownerFaction p → (n : ℤ) ≤ b.soldiers →
      applyHits p n b = { b with soldiers := b.soldiers - (n : ℤ) } := by
  intro n
  induction n with
  | zero =>
    intro b h hle
    simp [applyHits]
  | succ n ih =>
    intro b h hle
    have h1 : resolveHit p b = { b with soldiers := b.soldiers - 1 } :=
      resolveHit_hostile_pos p b h (by push_cast at hle; omega)
    rw [applyHits, h1, ih _ (by simpa using h) (by simp; push_cast at hle ⊢; omega)]
    simp
    ring

/-- Friendly reinforcements accumulate one soldier per arrival. -/
theorem applyHits_friendly (p : Bool) :
    ∀ (n : ℕ) (b : Building), b.ownership = ownerFaction p →
      applyHits p n b = { b with soldiers := b.soldiers + (n : ℤ) } := by
  intro n
  induction n with
  | zero =>
    intro b h
    simp [applyHits]
  | succ n ih =>
    intro b h
    have h1 : resolveHit p b = { b with soldiers := b.soldiers + 1 } := by
      simp [resolveHit, h]
    rw [applyHits, h1, ih _ (by simpa using h)]
    simp
    ring

/-- Splitting an arrival stream: the first `n` hits land before the last `m`. -/
theorem applyHits_add (p : Bool) (m : ℕ) :
    ∀ (n : ℕ) (b : Building), applyHits p (n + m) b = applyHits p m (applyHits p n b) := by
  intro n
  induction n with
  | zero =>
    intro b
    simp [applyHits]
  | succ n ih =>
    intro b
    have e : n + 1 + m = (n + m) + 1 := by omega
    rw [e]
    show applyHits p (n + m) (resolveHit p b) = applyHits p m (applyHits p n (resolveHit p b))
    exact ih (resolveHit p b)

/-! ## C1: capture correctness for a hostile stream -/

/-- C1.  A building whose faction differs from the attacker's, holding `g`
soldiers, that receives `a > g` hostile arrivals one at a time (and nothing
else) flips to the attacker's faction at arrival `g + 1` with garrison 1,
and after all `a` arrivals holds exactly `a - g` soldiers (the last
`a - g - 1` arrivals land as friendly reinforcements). -/
theorem capture_stream_flips_and_leaves_remainder (p : Bool) (b : Building) (g a : ℕ)
    (hown : b.ownership ≠ ownerFaction p) (hg : b.soldiers = (g : ℤ)) (ha : g < a) :
    (applyHits p (g + 1) b).ownership = ownerFaction p ∧
    (applyHits p (g + 1) b).soldiers = 1 ∧
    (applyHits p a b).ownership = ownerFaction p ∧
    (applyHits p a b).soldiers = (a : ℤ) - (g : ℤ) := by
  have hG : applyHits p g b = { b with soldiers := b.soldiers - (g : ℤ) } :=
    applyHits_hostile p g b hown (by omega)
  have hg1 : applyHits p (g + 1) b =
      { b with ownership := ownerFaction p, soldiers := 1 } := by
    rw [applyHits_add p 1 g b, hG]
    show resolveHit p { b with soldiers := b.soldiers - (g : ℤ) } = _
    have hz : b.soldiers - (g : ℤ) = 0 := by omega
    simp [resolveHit, hown, hz]
  have hsplit : applyHits p a b =
      applyHits p (a - (g + 1)) (applyHits p (g + 1) b) := by
    have e : a = (g + 1) + (a - (g + 1)) := by omega
    conv_lhs => rw [e]
    exact applyHits_add p (a - (g + 1)) (g + 1) b
  have hfin : applyHits p a b =
      { b with ownership := ownerFaction p,
               soldiers := 1 + ((a - (g + 1) : ℕ) : ℤ) } := by
    rw [hsplit, hg1, applyHits_friendly p _ _ (by simp)]
  refine ⟨by simp [hg1], by simp [hg1], by simp [hfin], ?_⟩
  rw [hfin]
  simp
  omega

/-- C1 at the spec's scenario: a neutral building with garrison 5 receiving
8 player units becomes player-owned with garrison 3, the flip happening at
arrival 6 with garrison 1. -/
theorem capture_stream_flips_and_leaves_remainder_witness :
    (applyHits true (5 + 1) ⟨0, 0, Ownership.neutral, 5, 1, false, 0, true⟩).ownership =
        ownerFaction true ∧
    (applyHits true (5 + 1) ⟨0, 0, Ownership.neutral, 5, 1, false, 0, true⟩).soldiers = 1 ∧
    (applyHits true 8 ⟨0, 0, Ownership.neutral, 5, 1, false, 0, true⟩).ownership =
        ownerFaction true ∧
    (applyHits true 8 ⟨0, 0, Ownership.neutral, 5, 1, false, 0, true⟩).soldiers =
        ((8 : ℕ) : ℤ) - ((5 : ℕ) : ℤ) :=
  capture_stream_flips_and_leaves_remainder true
    ⟨0, 0, Ownership.neutral, 5, 1, false, 0, true⟩ 5 8 (by decide) (by decide) (by decide)

/-! ## C10: garrison right after a capture is exactly 1 -/

/-- C10.  Because a hostile arrival decrements by exactly 1 and the capture
fires as soon as the count goes negative, a building whose stored count was
nonnegative holds exactly `abs (-1) = 1` soldier immediately after any
arrival that changes its ownership. -/
theorem capture_leaves_garrison_one (p : Bool) (b : Building)
    (h0 : 0 ≤ b.soldiers) (hcap : (resolveHit p b).ownership ≠ b.ownership) :
    (resolveHit p b).soldiers = 1 := by
  by_cases h : b.ownership = ownerFaction p
  · exact absurd (by simp [resolveHit, h]) hcap
  · by_cases h2 : b.soldiers - 1 < 0
    · have hz : b.soldiers = 0 := by omega
      simp [resolveHit, h, h2, hz]
    · exact absurd (by simp [resolveHit, h, h2]) hcap

/-- C10 at a concrete input: a neutral building with garrison 0 hit by a
player unit is captured and stores exactly 1 soldier. -/
theorem capture_leaves_garrison_one_witness :
    (resolveHit true ⟨0, 0, Ownership.neutral, 0, 1, false, 0, true⟩).soldiers = 1 :=
  capture_leaves_garrison_one true ⟨0, 0, Ownership.neutral, 0, 1, false, 0, true⟩
    (by decide) (by decide)

/-! ## C2: the stored troop count never goes negative -/

/-- A generation update never lowers the troop count. -/
theorem update_soldiers_mono (b : Building) (e : ℚ) :
    b.soldiers ≤ (Building.update b e).b.soldiers := by
  unfold Building.update
  dsimp only
  split_ifs <;> simp

/-- The function `startUpgrade` deducts only when the cost is covered. -/
theorem startUpgrade_soldiers_nonneg (b : Building) (h : 0 ≤ b.soldiers) :
    0 ≤ (Building.startUpgrade b).soldiers := by
  unfold Building.startUpgrade Building.upgradeCost
  split_ifs with h1 h2
  · exact h
  · exact h
  · simp at h2 ⊢
    omega

/-- The function `sendSoldiers` deducts at most the source's own count. -/
theorem sendSoldiers_soldiers_nonneg (b : Building) (c : ℤ) (h : 0 ≤ b.soldiers) :
    0 ≤ (sendSoldiers b c).src.soldiers := by
  unfold sendSoldiers
  dsimp only
  split_ifs with h1 h2
  · exact h
  · exact h
  · simp [sub_nonneg, min_le_left]

/-- An arrival leaves a nonnegative count nonnegative: a friendly arrival
adds, a hostile one either decrements a positive count or stores the
absolute value on capture. -/
theorem resolveHit_soldiers_nonneg (p : Bool) (b : Building) (h : 0 ≤ b.soldiers) :
    0 ≤ (resolveHit p b).soldiers := by
  unfold resolveHit
  split_ifs with h1 h2
  · simp
    omega
  · simp [abs_nonneg]
  · simp
    omega

/-- Every single mutation preserves nonnegativity of the stored count. -/
theorem applyOp_soldiers_nonneg (b : Building) (op : Op) (h : 0 ≤ b.soldiers) :
    0 ≤ (applyOp b op).soldiers := by
  cases op with
  | generate e => exact le_trans h (update_soldiers_mono b e)
  | upgradeStart => exact startUpgrade_soldiers_nonneg b h
  | dispatch c => exact sendSoldiers_soldiers_nonneg b c h
  | arrival p => exact resolveHit_soldiers_nonneg p b h

/-- C2.  Starting from a nonnegative stored count, every interleaving of
generation updates, upgrade starts, dispatch deductions and arrival
resolutions leaves the stored count nonnegative: the only transiently
negative value (capture) is absorbed into `abs` within the same mutation,
so no tick ever ends with a negative persisted count. -/
theorem soldiers_nonneg_invariant (b : Building) (ops : List Op) (h : 0 ≤ b.soldiers) :
    0 ≤ (applyOps b ops).soldiers := by
  induction ops generalizing b with
  | nil => simpa [applyOps] using h
  | cons op rest ih =>
    have h1 := applyOp_soldiers_nonneg b op h
    simpa [applyOps] using ih (applyOp b op) h1

/-- C2 at a concrete interleaving: a freshly captured neutral building that
dispatches, generates and upgrades still stores a nonnegative count. -/
theorem soldiers_nonneg_invariant_witness :
    0 ≤ (applyOps ⟨0, 0, Ownership.neutral, 0, 1, false, 0, true⟩
          [Op.arrival true, Op.dispatch 3, Op.generate 2500,
           Op.arrival false, Op.upgradeStart]).soldiers :=
  soldiers_nonneg_invariant ⟨0, 0, Ownership.neutral, 0, 1, false, 0, true⟩
    [Op.arrival true, Op.dispatch 3, Op.generate 2500,
     Op.arrival false, Op.upgradeStart] (by decide)

/-! ## C3: dispatch clamps, deducts immediately, schedules exactly the clamp -/

/-- C3.  `sendSoldiers src tgt n` clamps to `min n src.soldiers`; when the
clamp is not positive nothing changes and nothing is scheduled, otherwise
the source loses exactly the clamp at dispatch time and exactly that many
staggered spawns (one per 50 ms step) are scheduled. -/
theorem sendSoldiers_clamps_and_schedules (src : Building) (count : ℤ) :
    (min count src.soldiers ≤ 0 → sendSoldiers src count = ⟨src, 0, []⟩) ∧
    (0 < min count src.soldiers →
      sendSoldiers src count =
        ⟨{ src with soldiers := src.soldiers - min count src.soldiers },
         (min count src.soldiers).toNat,
         (List.range (min count src.soldiers).toNat).map (fun i => i * 50)⟩) := by
  constructor
  · intro h
    have h' : min src.soldiers count ≤ 0 := le_of_eq_of_le (min_comm src.soldiers count) h
    unfold sendSoldiers
    by_cases h1 : count ≤ 0
    · simp [h1]
    · simp [h1, h']
  · intro h
    unfold sendSoldiers
    dsimp only
    split_ifs with ha hb
    · exfalso
      have := min_le_left count src.soldiers
      omega
    · exfalso
      rw [min_comm src.soldiers count] at hb
      omega
    · rw [min_comm src.soldiers count]

/-- C3 at a concrete dispatch: 4 requested from a source holding 10 deducts
4 immediately and schedules 4 spawns at 0, 50, 100, 150 ms. -/
theorem sendSoldiers_clamps_and_schedules_witness :
    sendSoldiers ⟨0, 0, Ownership.player, 10, 1, false, 0, true⟩ 4 =
      ⟨⟨0, 0, Ownership.player, 6, 1, false, 0, true⟩, 4, [0, 50, 100, 150]⟩ := by
  rw [(sendSoldiers_clamps_and_schedules ⟨0, 0, Ownership.player, 10, 1, false, 0, true⟩ 4).2
    (by decide)]
  decide

/-! ## C4: generation in a tick with 2500 ms elapsed -/

/-- C4, counterexample to the claim as stated: a player building at level 1
(base interval 1000 ms, not upgrading) with 2500 ms elapsed does NOT gain 2
soldiers in the tick — `Building.update` increments at most once per call. -/
theorem generation_2500ms_not_two_soldiers :
    ¬ ((Building.update ⟨0, 0, Ownership.player, 10, 1, false, 0, true⟩ 2500).b.soldiers =
        10 + 2) := by
  norm_num [Building.update, generationTime]
  decide

/-- C4, amended.  A player building at level 1 (base interval 1000 ms, not
upgrading) with 2500 ms elapsed in one tick gains exactly 1 soldier, and the
generation timer is reset to the tick timestamp, so the 1500 ms overshoot is
discarded rather than carried over. -/
theorem generation_2500ms_one_soldier_no_carryover :
    (Building.update ⟨0, 0, Ownership.player, 10, 1, false, 0, true⟩ 2500).b.soldiers = 11 ∧
    (Building.update ⟨0, 0, Ownership.player, 10, 1, false, 0, true⟩ 2500).timerReset = true := by
  norm_num [Building.update, generationTime]
  decide

/-! ## C5: startUpgrade has no level cap of its own -/

/-- C5, counterexample to the claim as stated: `startUpgrade` on a building
already at level 3 (claimed to be a no-op) with 20 soldiers deducts the cost
`5 * 3 = 15` and starts upgrading. -/
theorem startUpgrade_at_level_cap_not_noop :
    (Building.startUpgrade ⟨0, 0, Ownership.player, 20, 3, false, 0, true⟩).isUpgrading = true ∧
    (Building.startUpgrade ⟨0, 0, Ownership.player, 20, 3, false, 0, true⟩).soldiers = 5 := by
  decide

/-- C5, amended.  `startUpgrade` is a no-op when already upgrading; it leaves
the building unchanged (failing silently) when `soldiers < 5 * level`;
otherwise — at any level, the function checks no cap — it deducts exactly
`5 * level`, sets the upgrading flag and zeroes the progress accumulator.
The level cap of 3 is enforced only by the AI caller: `decideForBuilding`
never issues an upgrade for a building at level 3 or above. -/
theorem startUpgrade_behaviour (b : Building) (threatLevel : ℚ)
    (exT atkT : List ℤ) (p : AIParams) (r : Rolls) :
    (b.isUpgrading = true → Building.startUpgrade b = b) ∧
    (b.isUpgrading = false → b.soldiers < 5 * (b.level : ℤ) → Building.startUpgrade b = b) ∧
    (b.isUpgrading = false → 5 * (b.level : ℤ) ≤ b.soldiers →
      Building.startUpgrade b =
        { b with soldiers := b.soldiers - 5 * (b.level : ℤ),
                 isUpgrading := true, upgradeProgress := 0 }) ∧
    (3 ≤ b.level → decideForBuilding b threatLevel exT atkT p r ≠ Decision.upgrade) := by
  refine ⟨?_, ?_, ?_, ?_⟩
  · intro h
    unfold Building.startUpgrade
    rw [if_pos h]
  · intro h hlt
    unfold Building.startUpgrade
    rw [if_neg (by simp [h]), if_pos (by simpa [Building.upgradeCost] using hlt)]
  · intro h hge
    unfold Building.startUpgrade
    rw [if_neg (by simp [h]), if_neg (by simp [Building.upgradeCost]; omega)]
    simp [Building.upgradeCost]
  · intro h3
    have hcap : ¬ b.level < 3 := by omega
    unfold decideForBuilding
    by_cases h1 : b.isUpgrading = true
    · simp [h1]
    · by_cases h2 : b.soldiers ≤ 1
      · simp [h1, h2]
      · cases hE : evaluateStrategicOptions b threatLevel exT atkT p r <;>
          simp [h1, h2, hE, hcap]

/-- C5 at concrete inputs: a non-upgrading level-2 building with 11 soldiers
successfully starts an upgrade, paying 10. -/
theorem startUpgrade_behaviour_witness :
    Building.startUpgrade ⟨0, 0, Ownership.player, 11, 2, false, 500, true⟩ =
      { (⟨0, 0, Ownership.player, 11, 2, false, 500, true⟩ : Building) with
          soldiers := 11 - 5 * ((2 : ℕ) : ℤ), isUpgrading := true, upgradeProgress := 0 } :=
  (startUpgrade_behaviour ⟨0, 0, Ownership.player, 11, 2, false, 500, true⟩
    0 [] [] ⟨0, 0, 0⟩ ⟨0, 0, 0⟩).2.2.1 (by decide) (by decide)

/-! ## C7: unguarded zero-length direction in the Soldier constructor -/

/-- C7.  The velocity computation of the `Soldier` constructor divides by
`Math.sqrt(dx*dx + dy*dy)` unconditionally; whenever the source point equals
the target point that divisor is zero, so the velocity components are NOT
well-defined finite numbers (`0 / 0` is `NaN` in JS) — contradicting the
claim that the degenerate case is guarded.  The resulting unit's position
becomes `NaN` on its first update and the arrival test `NaN < 100` never
fires, so it is not treated as immediately arrived either. -/
theorem soldier_velocity_undefined_at_zero_direction (x y : ℚ) :
    Soldier.velocityDefined x y x y = false := by
  simp [Soldier.velocityDefined, Soldier.dirLengthSq]

/-! ## C6: terminal check fires the right outcome exactly once -/

/-- Once the sticky flag is set, no later tick reports anything, whatever
happens to the building collection. -/
theorem runChecks_after_terminal (bss : List (List Building)) :
    ∀ s : SceneState, s.gameOver = true → (runChecks s bss).2 = [] := by
  induction bss with
  | nil =>
    intro s h
    simp [runChecks]
  | cons bs rest ih =>
    intro s h
    have hstep : checkGameOver { s with buildings := bs } = ({ s with buildings := bs }, none) := by
      simp [checkGameOver, h]
    simp [runChecks, hstep, ih { s with buildings := bs } (by simp [h])]

/-- C6.  `checkGameOver` is a no-op once the terminal flag is set; a win
(resp. loss) is reported exactly when the player (resp. enemy) owns an
active building while the other faction owns none; both factions owning
zero buildings is not terminal; and in a winning scenario the outcome is
reported exactly once across the remaining ticks, whatever the building
collection later becomes. -/
theorem checkGameOver_terminal_once (s : SceneState) (rest : List (List Building)) :
    (s.gameOver = true → checkGameOver s = (s, none)) ∧
    ((checkGameOver s).2 = some Outcome.win ↔
      s.gameOver = false ∧ hasBuildings Ownership.player s.buildings = true ∧
        hasBuildings Ownership.enemy s.buildings = false) ∧
    ((checkGameOver s).2 = some Outcome.lose ↔
      s.gameOver = false ∧ hasBuildings Ownership.enemy s.buildings = true ∧
        hasBuildings Ownership.player s.buildings = false) ∧
    ((hasBuildings Ownership.player s.buildings = false ∧
        hasBuildings Ownership.enemy s.buildings = false) →
      checkGameOver s = (s, none)) ∧
    (s.gameOver = false → hasBuildings Ownership.player s.buildings = true →
      hasBuildings Ownership.enemy s.buildings = false →
      (runChecks s (s.buildings :: rest)).2 = [Outcome.win]) := by
  refine ⟨?_, ?_, ?_, ?_, ?_⟩
  · intro h
    simp [checkGameOver, h]
  · by_cases hg : s.gameOver
    · simp [checkGameOver, hg]
    · by_cases hp : hasBuildings Ownership.player s.buildings <;>
        by_cases he : hasBuildings Ownership.enemy s.buildings <;>
        simp [checkGameOver, hg, hp, he]
  · by_cases hg : s.gameOver
    · simp [checkGameOver, hg]
    · by_cases hp : hasBuildings Ownership.player s.buildings <;>
        by_cases he : hasBuildings Ownership.enemy s.buildings <;>
        simp [checkGameOver, hg, hp, he]
  · intro h
    simp [checkGameOver, h.1, h.2]
  · intro hg hp he
    have hstep : checkGameOver { s with buildings := s.buildings } =
        ({ s with buildings := s.buildings, gameOver := true }, some Outcome.win) := by
      simp [checkGameOver, hg, hp, he]
    simp [runChecks, hstep,
      runChecks_after_terminal rest { s with buildings := s.buildings, gameOver := true } (by simp)]

/-- C6 at the spec's scenario: one active player building, no enemy
buildings, flag clear — ticking any number of further collections reports
the win exactly once. -/
theorem checkGameOver_terminal_once_witness :
    (runChecks ⟨[⟨0, 0, Ownership.player, 10, 1, false, 0, true⟩], false⟩
      ([⟨0, 0, Ownership.player, 10, 1, false, 0, true⟩] :: [[], []])).2 = [Outcome.win] :=
  (checkGameOver_terminal_once ⟨[⟨0, 0, Ownership.player, 10, 1, false, 0, true⟩], false⟩
    [[], []]).2.2.2.2 (by decide) (by decide) (by decide)

/-! ## C8: the AI sendable cap and cap-bound holding -/

/-- C8.  The sendable cap computed by the AI matches the spec's formula
`max(1, floor(ownTroops * (1 - minSoldiersToKeep * threatLevel)))`, and
whenever that cap is at most 1 the decision pass issues nothing for the
building: no dispatch and no upgrade, for every oracle of random rolls and
every pair of target lists. -/
theorem ai_cap_formula_and_holds (b : Building) (threatLevel : ℚ)
    (expansionTargets attackTargets : List ℤ) (p : AIParams) (r : Rolls) :
    maxSoldiersToSend b.soldiers p.minSoldiersToKeep threatLevel =
      specSendableCap b.soldiers p.minSoldiersToKeep threatLevel ∧
    (maxSoldiersToSend b.soldiers p.minSoldiersToKeep threatLevel ≤ 1 →
      decideForBuilding b threatLevel expansionTargets attackTargets p r = Decision.hold) := by
  refine ⟨rfl, fun h => ?_⟩
  unfold decideForBuilding
  by_cases h1 : b.isUpgrading = true
  · simp [h1]
  · by_cases h2 : b.soldiers ≤ 1
    · simp [h1, h2]
    · have hE : evaluateStrategicOptions b threatLevel expansionTargets attackTargets p r =
          Decision.hold := by
        unfold evaluateStrategicOptions
        simp [h]
      simp [h1, h2, hE]

/-- C8 at the spec's scenario: threat 1, `minSoldiersToKeep` 0.5, 2 troops —
the cap is `max(1, floor(2 * 0.5)) = 1` and the building holds. -/
theorem ai_cap_formula_and_holds_witness :
    maxSoldiersToSend
      (⟨0, 0, Ownership.enemy, 2, 1, false, 0, true⟩ : Building).soldiers (1 / 2) 1 ≤ 1 ∧
    decideForBuilding ⟨0, 0, Ownership.enemy, 2, 1, false, 0, true⟩ 1 [0] [4]
      ⟨2 / 5, 3 / 5, 1 / 2⟩ ⟨0, 0, 0⟩ = Decision.hold :=
  ⟨by norm_num [maxSoldiersToSend],
   (ai_cap_formula_and_holds ⟨0, 0, Ownership.enemy, 2, 1, false, 0, true⟩ 1 [0] [4]
      ⟨2 / 5, 3 / 5, 1 / 2⟩ ⟨0, 0, 0⟩).2 (by norm_num [maxSoldiersToSend])⟩

/-! ## C9: arrival with no building in capture radius -/

/-- When no active building lies within the capture radius of the target
point, the resolver's `find` comes back empty and the collection is left
exactly as it was. -/
theorem resolveArrival_no_match (p : Bool) (tx ty : ℚ) :
    ∀ bs : List Building, (∀ b ∈ bs, withinCaptureRadius tx ty b = false) →
      resolveArrival p tx ty bs = bs := by
  intro bs
  induction bs with
  | nil => intro h; rfl
  | cons b rest ih =>
    intro h
    have hb := h b (by simp)
    simp [resolveArrival, hb, ih fun x hx => h x (List.mem_cons_of_mem b hx)]

/-- C9.  A unit arriving at a point with no active building within the 50 px
capture radius (squared threshold 2500) is removed from the live collection
while every building — faction, troop count and all other state — is left
unchanged; no error is surfaced (the branch simply skips to destroying the
unit). -/
theorem arrival_without_building_discards_unit (p : Bool) (tx ty : ℚ)
    (bs : List Building) (h : ∀ b ∈ bs, withinCaptureRadius tx ty b = false) :
    processReached p tx ty bs = { buildings := bs, unitKept := false } := by
  unfold processReached
  rw [resolveArrival_no_match p tx ty bs h]

/-- C9 at a concrete input: a unit landing at the origin, 100 px away from
the only building, is discarded and the building keeps its 5 soldiers. -/
theorem arrival_without_building_discards_unit_witness :
    processReached true 0 0 [⟨100, 0, Ownership.enemy, 5, 1, false, 0, true⟩] =
      { buildings := [⟨100, 0, Ownership.enemy, 5, 1, false, 0, true⟩], unitKept := false } :=
  arrival_without_building_discards_unit true 0 0
    [⟨100, 0, Ownership.enemy, 5, 1, false, 0, true⟩] (by norm_num [withinCaptureRadius])
